import Mathlib

/-!
Shallow embedding of the stock/inventory ledger and point-of-sale core of
the sc4x repository: the `/adjust` and `/bulk-adjust` routes of
`src/server/routes/dashboard.js` and the `POST /` (createSale) and
`POST /:id/refund` routes of `src/server/routes/sales.js`, over the tables
declared in `src/server/database/schema.sql`.

Rows are modelled as structures, tables as lists kept in insertion order,
and each route as a pure function from a database state to a database
state plus a response value; `database.rollback()` is modelled by
returning the pre-transaction state on the error path.
-/

namespace SC4X

/-- Row of the `products` table; only the columns the stock core reads. -/
structure Product where
  id : Nat
  name : String
  min_stock_level : Int
  is_active : Bool
deriving Repr, DecidableEq

/-- Row of the `stock` table: one line per (product_id, variant_id) key. -/
structure StockLine where
  product_id : Nat
  variant_id : Option Nat
  quantity : Int
  updated_by : Option Nat
deriving Repr, DecidableEq

/-- Row of the `stock_movements` ledger table. -/
structure StockMovement where
  product_id : Nat
  variant_id : Option Nat
  movement_type : String
  quantity_change : Int
  quantity_before : Int
  quantity_after : Int
  reference_id : Option Nat
  reference_type : Option String
  notes : Option String
  created_by : Nat
deriving Repr, DecidableEq

/-- Row of the `low_stock_alerts` table. -/
structure LowStockAlert where
  product_id : Nat
  variant_id : Option Nat
  current_stock : Int
  min_stock_level : Int
  alert_status : String
deriving Repr, DecidableEq

/-- Row of the `sales` table; `status` defaults to "completed" on insert
per the schema. Monetary amounts are the integral values used by the
scenarios of this development. -/
structure Sale where
  id : Nat
  sale_number : String
  total_amount : Int
  tax_amount : Int
  discount_amount : Int
  payment_method : String
  status : String
  cashier_id : Nat
  customer_name : Option String
  notes : Option String
deriving Repr, DecidableEq

/-- Row of the `sale_items` table. -/
structure SaleItem where
  id : Nat
  sale_id : Nat
  product_id : Nat
  variant_id : Option Nat
  quantity : Int
  unit_price : Int
  total_price : Int
  discount_amount : Int
deriving Repr, DecidableEq

/-- The database state: the tables the stock/sales core reads and writes,
plus autoincrement counters for the generated primary keys the code uses
(`saleResult.id`, `sale_items.id`). -/
structure DB where
  products : List Product
  stock : List StockLine
  stock_movements : List StockMovement
  low_stock_alerts : List LowStockAlert
  sales : List Sale
  sale_items : List SaleItem
  next_sale_id : Nat
  next_sale_item_id : Nat
deriving Repr, DecidableEq

/-- SELECT * FROM products WHERE id = ? AND is_active = 1. -/
def getActiveProduct (db : DB) (product_id : Nat) : Option Product :=
  db.products.find? (fun p => p.id == product_id && p.is_active)

/-- The WHERE clause `product_id = ? AND variant_id IS ?` on a stock row. -/
def stockKeyMatch (product_id : Nat) (variant_id : Option Nat) (s : StockLine) : Bool :=
  s.product_id == product_id && s.variant_id == variant_id

/-- SELECT * FROM stock WHERE product_id = ? AND variant_id IS ?. -/
def getStock (db : DB) (product_id : Nat) (variant_id : Option Nat) : Option StockLine :=
  db.stock.find? (stockKeyMatch product_id variant_id)

/-- UPDATE stock SET quantity = ?, updated_by = ? WHERE product_id = ? AND variant_id IS ?. -/
def updateStockQuantity (db : DB) (product_id : Nat) (variant_id : Option Nat)
    (quantity : Int) (userId : Nat) : DB :=
  { db with stock := db.stock.map (fun s =>
      if stockKeyMatch product_id variant_id s then
        { s with quantity := quantity, updated_by := some userId }
      else s) }

/-- INSERT INTO stock_movements (...) VALUES (...). -/
def insertMovement (db : DB) (m : StockMovement) : DB :=
  { db with stock_movements := db.stock_movements ++ [m] }

/-- The WHERE clause `product_id = ? AND variant_id IS ? AND
alert_status = "active"` on an alert row. -/
def alertActiveKeyMatch (product_id : Nat) (variant_id : Option Nat) (a : LowStockAlert) : Bool :=
  a.product_id == product_id && a.variant_id == variant_id && a.alert_status == "active"

/-- SELECT id FROM low_stock_alerts WHERE product_id = ? AND variant_id IS ?
AND alert_status = "active". -/
def getActiveAlert (db : DB) (product_id : Nat) (variant_id : Option Nat) : Option LowStockAlert :=
  db.low_stock_alerts.find? (alertActiveKeyMatch product_id variant_id)

/-- INSERT INTO low_stock_alerts (product_id, variant_id, current_stock, min_stock_level)
VALUES (?, ?, ?, ?); `alert_status` defaults to "active" per the schema. -/
def insertAlert (db : DB) (product_id : Nat) (variant_id : Option Nat)
    (current_stock min_stock_level : Int) : DB :=
  { db with low_stock_alerts :=
      db.low_stock_alerts ++ [⟨product_id, variant_id, current_stock, min_stock_level, "active"⟩] }

/-- The effect of the resolve UPDATE on a single alert row. -/
def resolveAlertRow (product_id : Nat) (variant_id : Option Nat) (a : LowStockAlert) :
    LowStockAlert :=
  if alertActiveKeyMatch product_id variant_id a then { a with alert_status := "resolved" } else a

/-- UPDATE low_stock_alerts SET alert_status = "resolved" WHERE product_id = ?
AND variant_id IS ? AND alert_status = "active". -/
def resolveActiveAlerts (db : DB) (product_id : Nat) (variant_id : Option Nat) : DB :=
  { db with low_stock_alerts := db.low_stock_alerts.map (resolveAlertRow product_id variant_id) }

/-- The low-stock alert block shared by `/adjust` (dashboard.js lines 792-812)
and each `/bulk-adjust` item (lines 961-979): create an alert when the new
quantity is at or below the minimum and no active alert exists for the key,
otherwise resolve any active alerts for the key. -/
def reconcileAlerts (db : DB) (product_id : Nat) (variant_id : Option Nat)
    (newQuantity minLevel : Int) : DB :=
  if newQuantity ≤ minLevel then
    match getActiveAlert db product_id variant_id with
    | some _ => db
    | none => insertAlert db product_id variant_id newQuantity minLevel
  else
    resolveActiveAlerts db product_id variant_id

/-- The low-stock alert block of createSale (sales.js lines 320-333): it only
creates alerts, with no resolve branch. -/
def saleAlertCheck (db : DB) (product_id : Nat) (variant_id : Option Nat)
    (newQuantity minLevel : Int) : DB :=
  if newQuantity ≤ minLevel then
    match getActiveAlert db product_id variant_id with
    | some _ => db
    | none => insertAlert db product_id variant_id newQuantity minLevel
  else db

/-- Error responses of the four routes, with the context the messages carry. -/
inductive ApiError
  | validationFailed
  | productNotFound
  | stockNotFound
  | saleNotFound
  | productMissing (product_id : Nat)
  | insufficientStock (productName : String) (available required : Int)
deriving Repr, DecidableEq

/-- Request body of POST /api/dashboard/adjust. -/
structure AdjustRequest where
  product_id : Nat
  variant_id : Option Nat
  adjustment_type : String
  quantity : Int
  notes : Option String
deriving Repr, DecidableEq

/-- express-validator checks on `/adjust`: adjustment_type in
[in, out, adjustment] and quantity an integer ≥ 1. -/
def adjustRequestValid (r : AdjustRequest) : Bool :=
  (r.adjustment_type == "in" || r.adjustment_type == "out" || r.adjustment_type == "adjustment")
    && decide (1 ≤ r.quantity)

/-- The `switch (adjustment_type)` of dashboard.js lines 752-762 (and
identically lines 924-934): `in` adds, `out` clamps at zero with Math.max,
`adjustment` sets the quantity directly. The validators restrict the type to
these three cases, `adjustment` being the remaining one. -/
def computeNewQuantity (adjustment_type : String) (currentQuantity quantity : Int) : Int :=
  if adjustment_type == "in" then currentQuantity + quantity
  else if adjustment_type == "out" then max 0 (currentQuantity - quantity)
  else quantity

/-- Response payload `data.adjustment` of `/adjust`. -/
structure AdjustmentResult where
  adjustment_type : String
  quantity_change : Int
  previous_quantity : Int
  new_quantity : Int
deriving Repr, DecidableEq

/-- POST /api/dashboard/adjust (dashboard.js lines 701-859): single manual
stock adjustment. Look up the active product and the stock line, compute the
new quantity from the adjustment type, update the stock line, append the
stock movement, and reconcile the low-stock alert, all in one transaction. -/
def adjust (db : DB) (userId : Nat) (r : AdjustRequest) :
    Except ApiError (DB × AdjustmentResult) :=
  if adjustRequestValid r then
    match getActiveProduct db r.product_id with
    | none => .error .productNotFound
    | some product =>
      match getStock db r.product_id r.variant_id with
      | none => .error .stockNotFound
      | some currentStock =>
        let currentQuantity := currentStock.quantity
        let newQuantity := computeNewQuantity r.adjustment_type currentQuantity r.quantity
        let quantityChange := newQuantity - currentQuantity
        let db1 := updateStockQuantity db r.product_id r.variant_id newQuantity userId
        let db2 := insertMovement db1
          ⟨r.product_id, r.variant_id, r.adjustment_type, quantityChange,
            currentQuantity, newQuantity, none, none, r.notes, userId⟩
        let db3 := reconcileAlerts db2 r.product_id r.variant_id newQuantity
          product.min_stock_level
        .ok (db3, ⟨r.adjustment_type, quantityChange, currentQuantity, newQuantity⟩)
  else .error .validationFailed

/-- One element of the `adjustments` array of POST /api/dashboard/bulk-adjust. -/
structure BulkAdjustmentItem where
  product_id : Nat
  variant_id : Option Nat
  adjustment_type : String
  quantity : Int
deriving Repr, DecidableEq

/-- One element of the `successful` list of the bulk-adjust response. -/
structure BulkResult where
  product_id : Nat
  product_name : String
  adjustment_type : String
  quantity_change : Int
  previous_quantity : Int
  new_quantity : Int
  success : Bool
deriving Repr, DecidableEq

/-- One element of the `failed` list of the bulk-adjust response. -/
structure BulkFailure where
  product_id : Nat
  error : String
deriving Repr, DecidableEq

/-- The `summary` object of the bulk-adjust response. -/
structure BulkSummary where
  total : Nat
  successful : Nat
  failed : Nat
deriving Repr, DecidableEq

/-- express-validator checks on `/bulk-adjust`: adjustments a non-empty
array, each adjustment_type in [in, out, adjustment], each quantity an
integer ≥ 0. -/
def bulkAdjustValid (adjustments : List BulkAdjustmentItem) : Bool :=
  !adjustments.isEmpty && adjustments.all (fun a =>
    (a.adjustment_type == "in" || a.adjustment_type == "out" || a.adjustment_type == "adjustment")
      && decide (0 ≤ a.quantity))

/-- One iteration of the `for (const adjustment of adjustments)` loop of
`/bulk-adjust` (dashboard.js lines 888-997): a missing product or stock line
puts the item on the failed list and leaves the state untouched; otherwise
the stock line is updated, a movement appended, alerts reconciled, and the
item reported successful. -/
def bulkAdjustItem (db : DB) (userId : Nat) (notes : Option String)
    (a : BulkAdjustmentItem) : DB × (BulkResult ⊕ BulkFailure) :=
  match getActiveProduct db a.product_id with
  | none => (db, Sum.inr ⟨a.product_id, "Product not found"⟩)
  | some product =>
    match getStock db a.product_id a.variant_id with
    | none => (db, Sum.inr ⟨a.product_id, "Stock record not found"⟩)
    | some currentStock =>
      let currentQuantity := currentStock.quantity
      let newQuantity := computeNewQuantity a.adjustment_type currentQuantity a.quantity
      let quantityChange := newQuantity - currentQuantity
      let db1 := updateStockQuantity db a.product_id a.variant_id newQuantity userId
      let db2 := insertMovement db1
        ⟨a.product_id, a.variant_id, a.adjustment_type, quantityChange,
          currentQuantity, newQuantity, none, none,
          some (notes.getD ("Bulk adjustment")), userId⟩
      let db3 := reconcileAlerts db2 a.product_id a.variant_id newQuantity
        product.min_stock_level
      (db3, Sum.inl ⟨a.product_id, product.name, a.adjustment_type, quantityChange,
        currentQuantity, newQuantity, true⟩)

/-- The full bulk-adjust loop, threading the state and collecting the
`results` and `failed` lists in order. -/
def bulkAdjustLoop (userId : Nat) (notes : Option String) :
    DB → List BulkAdjustmentItem → DB × List BulkResult × List BulkFailure
  | db, [] => (db, [], [])
  | db, a :: rest =>
    match bulkAdjustItem db userId notes a with
    | (db1, Sum.inl r) =>
      let (db2, rs, fs) := bulkAdjustLoop userId notes db1 rest
      (db2, r :: rs, fs)
    | (db1, Sum.inr f) =>
      let (db2, rs, fs) := bulkAdjustLoop userId notes db1 rest
      (db2, rs, f :: fs)

/-- POST /api/dashboard/bulk-adjust (dashboard.js lines 861-1027). -/
def bulkAdjust (db : DB) (userId : Nat) (adjustments : List BulkAdjustmentItem)
    (notes : Option String) :
    Except ApiError (DB × List BulkResult × List BulkFailure × BulkSummary) :=
  if bulkAdjustValid adjustments then
    let (db1, results, failed) := bulkAdjustLoop userId notes db adjustments
    .ok (db1, results, failed, ⟨adjustments.length, results.length, failed.length⟩)
  else .error .validationFailed

/-- One element of the `items` array of POST /api/sales. -/
structure SaleItemRequest where
  product_id : Nat
  variant_id : Option Nat
  quantity : Int
  unit_price : Int
deriving Repr, DecidableEq

/-- Request body of POST /api/sales, with the defaults
(payment_method "cash", discount 0, tax 0) already applied. -/
structure SaleRequest where
  items : List SaleItemRequest
  payment_method : String
  customer_name : Option String
  discount_amount : Int
  tax_amount : Int
  notes : Option String
deriving Repr, DecidableEq

/-- express-validator checks on POST /api/sales: non-empty items array,
each quantity an integer ≥ 1, each unit price ≥ 0, discount and tax ≥ 0. -/
def saleRequestValid (r : SaleRequest) : Bool :=
  !r.items.isEmpty
    && r.items.all (fun i => decide (1 ≤ i.quantity) && decide (0 ≤ i.unit_price))
    && decide (0 ≤ r.discount_amount) && decide (0 ≤ r.tax_amount)

/-- One entry of the `validatedItems` array built by the createSale
validation loop (sales.js lines 217-252), carrying the product row and the
stock quantity observed at validation time. -/
structure ValidatedItem where
  product_id : Nat
  variant_id : Option Nat
  quantity : Int
  unit_price : Int
  total_price : Int
  product : Product
  current_stock : Int
deriving Repr, DecidableEq

/-- The createSale validation loop (sales.js lines 217-252): for every line,
in order, the product must exist and be active, and the stock line must
exist with quantity at least the requested quantity; the first failure
aborts with the corresponding error. No database write happens here. -/
def validateSaleItems (db : DB) : List SaleItemRequest → Except ApiError (List ValidatedItem)
  | [] => .ok []
  | item :: rest =>
    match getActiveProduct db item.product_id with
    | none => .error (.productMissing item.product_id)
    | some product =>
      match getStock db item.product_id item.variant_id with
      | none => .error (.insufficientStock product.name 0 item.quantity)
      | some stock =>
        if stock.quantity < item.quantity then
          .error (.insufficientStock product.name stock.quantity item.quantity)
        else
          match validateSaleItems db rest with
          | .error e => .error e
          | .ok vs =>
            .ok (⟨item.product_id, item.variant_id, item.quantity, item.unit_price,
              item.quantity * item.unit_price, product, stock.quantity⟩ :: vs)

/-- One iteration of the createSale write loop (sales.js lines 276-334):
insert the sale item, set the stock quantity to the validation-time
snapshot minus the sold quantity, append the `sale` movement, and run the
creation-only low-stock alert check. -/
def saleItemWrite (userId saleId : Nat) (saleNumber : String) (db : DB)
    (item : ValidatedItem) : DB :=
  let db1 := { db with
    sale_items := db.sale_items ++
      [⟨db.next_sale_item_id, saleId, item.product_id, item.variant_id,
        item.quantity, item.unit_price, item.total_price, 0⟩],
    next_sale_item_id := db.next_sale_item_id + 1 }
  let newQuantity := item.current_stock - item.quantity
  let db2 := updateStockQuantity db1 item.product_id item.variant_id newQuantity userId
  let db3 := insertMovement db2
    ⟨item.product_id, item.variant_id, "sale", -item.quantity,
      item.current_stock, newQuantity, some saleId, some "sale",
      some ("Sale " ++ saleNumber), userId⟩
  saleAlertCheck db3 item.product_id item.variant_id newQuantity
    item.product.min_stock_level

/-- Body of POST /api/sales (sales.js lines 175-384): validate every line
first, then insert the sale header and run the write loop. The generated
sale number is passed in as a parameter (the source derives it from the
clock and a random suffix). Returns the new state and the created sale id. -/
def createSale (db : DB) (userId : Nat) (saleNumber : String) (r : SaleRequest) :
    Except ApiError (DB × Nat) :=
  if saleRequestValid r then
    match validateSaleItems db r.items with
    | .error e => .error e
    | .ok validatedItems =>
      let subtotal := (validatedItems.map (fun v => v.total_price)).sum
      let totalAmount := subtotal - r.discount_amount + r.tax_amount
      let saleId := db.next_sale_id
      let db1 := { db with
        sales := db.sales ++
          [⟨saleId, saleNumber, totalAmount, r.tax_amount, r.discount_amount,
            r.payment_method, "completed", userId, r.customer_name, r.notes⟩],
        next_sale_id := db.next_sale_id + 1 }
      let db2 := validatedItems.foldl (saleItemWrite userId saleId saleNumber) db1
      .ok (db2, saleId)
  else .error .validationFailed

/-- POST /api/sales as an endpoint: on any error the transaction is rolled
back, so the caller observes the pre-transaction state unchanged. -/
def createSaleEndpoint (db : DB) (userId : Nat) (saleNumber : String) (r : SaleRequest) :
    DB × Except ApiError Nat :=
  match createSale db userId saleNumber r with
  | .ok (db1, saleId) => (db1, .ok saleId)
  | .error e => (db, .error e)

/-- SELECT * FROM sales WHERE id = ? AND status = "completed". -/
def getCompletedSale (db : DB) (saleId : Nat) : Option Sale :=
  db.sales.find? (fun s => s.id == saleId && s.status == "completed")

/-- The WHERE clause `id = ?` on a sale row. -/
def saleIdMatch (saleId : Nat) (s : Sale) : Bool :=
  s.id == saleId

/-- SELECT * FROM sales WHERE id = ? (first row, for inspecting results). -/
def getSaleById (db : DB) (saleId : Nat) : Option Sale :=
  db.sales.find? (saleIdMatch saleId)

/-- SELECT * FROM sale_items WHERE sale_id = ?. -/
def saleItemsOf (db : DB) (saleId : Nat) : List SaleItem :=
  db.sale_items.filter (fun si => si.sale_id == saleId)

/-- One iteration of the refund restore-stock loop (sales.js lines 431-467):
if the stock line exists, credit the item quantity back and append a
`return` movement referencing the sale; if it does not, the item is skipped
with no write and no error. -/
def refundItem (userId saleId : Nat) (saleNumber : String) (reason : Option String)
    (db : DB) (item : SaleItem) : DB :=
  match getStock db item.product_id item.variant_id with
  | none => db
  | some currentStock =>
    let newQuantity := currentStock.quantity + item.quantity
    let db1 := updateStockQuantity db item.product_id item.variant_id newQuantity userId
    insertMovement db1
      ⟨item.product_id, item.variant_id, "return", item.quantity,
        currentStock.quantity, newQuantity, some saleId, some "refund",
        some ("Refund for sale " ++ saleNumber ++
          (match reason with | some t => ": " ++ t | none => "")), userId⟩

/-- UPDATE sales SET status = ?, notes = ? WHERE id = ?. -/
def updateSaleStatusNotes (db : DB) (saleId : Nat) (status : String) (notes : String) : DB :=
  { db with sales := db.sales.map (fun s =>
      if saleIdMatch saleId s then { s with status := status, notes := some notes } else s) }

/-- The `itemsToRefund` selection of the refund route (sales.js lines
419-428): with a non-empty partial_items array, the sale items whose id is
named by some partial item; otherwise all sale items. -/
def refundTargetItems (saleItems : List SaleItem) (targetIds : Option (List Nat)) :
    List SaleItem :=
  match targetIds with
  | some ids =>
    if 0 < ids.length then
      saleItems.filter (fun item => ids.any (fun tid => tid == item.id))
    else saleItems
  | none => saleItems

/-- Response payload of the refund route. -/
structure RefundOutcome where
  refund_type : String
  refunded_items : Nat
  total_items : Nat
deriving Repr, DecidableEq

/-- POST /api/sales/:id/refund (sales.js lines 387-504): the sale must exist
with status "completed"; the target items have their stock credited back and
a `return` movement recorded; the status becomes "refunded" exactly when the
target list has as many items as the sale, else it stays "completed", and
the refund reason is appended to the sale notes. On error the state is
returned unchanged. -/
def refund (db : DB) (userId : Nat) (saleId : Nat) (reason : Option String)
    (targetIds : Option (List Nat)) : DB × Except ApiError RefundOutcome :=
  match getCompletedSale db saleId with
  | none => (db, .error .saleNotFound)
  | some sale =>
    let saleItems := saleItemsOf db saleId
    let itemsToRefund := refundTargetItems saleItems targetIds
    let db1 := itemsToRefund.foldl (refundItem userId saleId sale.sale_number reason) db
    let isFullRefund := itemsToRefund.length == saleItems.length
    let newNotes := (sale.notes.getD ("")) ++ "\nRefund: " ++
      (reason.getD ("No reason provided"))
    let db2 := updateSaleStatusNotes db1 saleId
      (if isFullRefund then "refunded" else "completed") newNotes
    (db2, .ok ⟨if isFullRefund then "full" else "partial",
      itemsToRefund.length, saleItems.length⟩)

/-- A request to one of the four mutating routes of the core. -/
inductive Op
  | adjustOp (userId : Nat) (r : AdjustRequest)
  | bulkOp (userId : Nat) (adjustments : List BulkAdjustmentItem) (notes : Option String)
  | saleOp (userId : Nat) (saleNumber : String) (r : SaleRequest)
  | refundOp (userId : Nat) (saleId : Nat) (reason : Option String)
      (targetIds : Option (List Nat))
deriving Repr

/-- The state reached after one request: the committed state on success, the
rolled-back (original) state on error. -/
def applyOp (db : DB) : Op → DB
  | .adjustOp u r =>
    match adjust db u r with
    | .ok (db1, _) => db1
    | .error _ => db
  | .bulkOp u as n =>
    match bulkAdjust db u as n with
    | .ok (db1, _, _, _) => db1
    | .error _ => db
  | .saleOp u n r => (createSaleEndpoint db u n r).1
  | .refundOp u sid reason t => (refund db u sid reason t).1

/-- Stock-debiting requests: a single `out` adjustment of arbitrary
requested quantity, or a sale. -/
inductive DebitOp
  | outAdjust (userId : Nat) (product_id : Nat) (variant_id : Option Nat)
      (quantity : Int) (notes : Option String)
  | saleDebit (userId : Nat) (saleNumber : String) (r : SaleRequest)
deriving Repr

/-- Run one stock-debiting request through the corresponding route. -/
def applyDebit (db : DB) : DebitOp → DB
  | .outAdjust u pid vid q n => applyOp db (.adjustOp u ⟨pid, vid, "out", q, n⟩)
  | .saleDebit u n r => applyOp db (.saleOp u n r)

/-- Run a sequence of stock-debiting requests in order. -/
def applyDebits (db : DB) (ops : List DebitOp) : DB :=
  ops.foldl applyDebit db

/-- Every stock line has a non-negative quantity. -/
def stockNonNeg (db : DB) : Prop :=
  ∀ s ∈ db.stock, 0 ≤ s.quantity

instance (db : DB) : Decidable (stockNonNeg db) :=
  inferInstanceAs (Decidable (∀ s ∈ db.stock, 0 ≤ s.quantity))

/-- Two alert rows are both active for the same (product, variant) key. -/
def sameActiveKey (a b : LowStockAlert) : Prop :=
  a.alert_status = "active" ∧ b.alert_status = "active" ∧
    a.product_id = b.product_id ∧ a.variant_id = b.variant_id

instance : DecidableRel sameActiveKey := fun a b =>
  inferInstanceAs (Decidable (_ ∧ _ ∧ _ ∧ _))

/-- At most one active alert row exists per (product, variant) key. -/
def singleActiveAlert (db : DB) : Prop :=
  db.low_stock_alerts.Pairwise (fun a b => ¬ sameActiveKey a b)

instance (db : DB) : Decidable (singleActiveAlert db) :=
  inferInstanceAs (Decidable (List.Pairwise _ _))

/-- The active alert rows of one (product, variant) key. -/
def activeAlertsFor (db : DB) (product_id : Nat) (variant_id : Option Nat) :
    List LowStockAlert :=
  db.low_stock_alerts.filter (alertActiveKeyMatch product_id variant_id)

/-- The ordered ledger history of one (product, variant) key. -/
def movementsFor (db : DB) (product_id : Nat) (variant_id : Option Nat) :
    List StockMovement :=
  db.stock_movements.filter (fun m =>
    m.product_id == product_id && m.variant_id == variant_id)

/-- Replay a ledger history from quantity 0 by accumulating each entry's
quantity_change. -/
def replayQuantity (ms : List StockMovement) : Int :=
  ms.foldl (fun q m => q + m.quantity_change) 0

/-- A database with one active product (id 1, min stock level 0) and its
stock line at quantity 0, as product creation provisions it. -/
def dbOneProduct : DB :=
  { products := [⟨1, "Product A", 0, true⟩],
    stock := [⟨1, none, 0, none⟩],
    stock_movements := [],
    low_stock_alerts := [],
    sales := [],
    sale_items := [],
    next_sale_id := 1,
    next_sale_item_id := 1 }

/-- Scenario for the duplicate-key sale: stock of product 1 raised to 5 by
an `in` adjustment, so the ledger history is consistent before the sale. -/
def dbDupKey : DB :=
  applyOp dbOneProduct (.adjustOp 1 ⟨1, none, "in", 5, none⟩)

/-- The duplicate-key sale request: two lines for the same
(product 1, no variant) key, quantities 2 and 1. -/
def dupKeySaleRequest : SaleRequest :=
  ⟨[⟨1, none, 2, 10⟩, ⟨1, none, 1, 10⟩], "cash", none, 0, 0, none⟩

/-- State after the duplicate-key sale. -/
def dbDupKeyAfter : DB :=
  applyOp dbDupKey (.saleOp 1 "SALE-1" dupKeySaleRequest)

/-- Scenario for refund alert resolution: product 1 with min stock level 5,
stock at quantity 2, an active low-stock alert for it, and a completed sale
number S-1 (id 1) of 4 units of product 1 (item id 1), as left behind by a
sale that crossed the threshold. -/
def dbRefundAlert : DB :=
  { products := [⟨1, "Product A", 5, true⟩],
    stock := [⟨1, none, 2, some 1⟩],
    stock_movements :=
      [⟨1, none, "in", 6, 0, 6, none, none, none, 1⟩,
       ⟨1, none, "sale", -4, 6, 2, some 1, some "sale", some "Sale S-1", 1⟩],
    low_stock_alerts := [⟨1, none, 2, 5, "active"⟩],
    sales := [⟨1, "S-1", 40, 0, 0, "cash", "completed", 1, none, none⟩],
    sale_items := [⟨1, 1, 1, none, 4, 10, 40, 0⟩],
    next_sale_id := 2,
    next_sale_item_id := 2 }

/-- Scenario for the missing-stock-line refund: a completed sale (id 1) of
product 2, which has no stock row at refund time. -/
def dbMissingStock : DB :=
  { products := [⟨2, "Product B", 0, true⟩],
    stock := [],
    stock_movements := [],
    low_stock_alerts := [],
    sales := [⟨1, "S-2", 30, 0, 0, "cash", "completed", 1, none, none⟩],
    sale_items := [⟨1, 1, 2, none, 3, 10, 30, 0⟩],
    next_sale_id := 2,
    next_sale_item_id := 2 }

/-- Scenario for repeated partial refunds: product 1 with stock 10 and a
completed sale (id 1) of two items, item 1 for 4 units of product 1 and
item 2 for 3 units of product 3 (a second line, so that refunding item 1
alone is partial). -/
def dbDoubleRefund : DB :=
  { products := [⟨1, "Product A", 0, true⟩, ⟨3, "Product C", 0, true⟩],
    stock := [⟨1, none, 10, some 1⟩, ⟨3, none, 7, some 1⟩],
    stock_movements := [],
    low_stock_alerts := [],
    sales := [⟨1, "S-3", 70, 0, 0, "cash", "completed", 1, none, none⟩],
    sale_items := [⟨1, 1, 1, none, 4, 10, 40, 0⟩, ⟨2, 1, 3, none, 3, 10, 30, 0⟩],
    next_sale_id := 2,
    next_sale_item_id := 3 }

/-- Scenario for atomicity: product 1 with stock 5 and product 2 active but
out of stock (quantity 0), as in the spec's atomicity scenario. -/
def dbAtomicity : DB :=
  { products := [⟨1, "Product A", 0, true⟩, ⟨2, "Product B", 0, true⟩],
    stock := [⟨1, none, 5, none⟩, ⟨2, none, 0, none⟩],
    stock_movements := [],
    low_stock_alerts := [],
    sales := [],
    sale_items := [],
    next_sale_id := 1,
    next_sale_item_id := 1 }

/-- Scenario for the over-withdrawal clamp: product 1 with stock 3. -/
def dbClamp : DB :=
  { products := [⟨1, "Product A", 0, true⟩],
    stock := [⟨1, none, 3, none⟩],
    stock_movements := [],
    low_stock_alerts := [],
    sales := [],
    sale_items := [],
    next_sale_id := 1,
    next_sale_item_id := 1 }

/-! Component lemmas: which tables each write helper leaves untouched. -/

theorem insertMovement_stock (db : DB) (m : StockMovement) :
    (insertMovement db m).stock = db.stock := rfl

theorem insertAlert_stock (db : DB) (p : Nat) (v : Option Nat) (c m : Int) :
    (insertAlert db p v c m).stock = db.stock := rfl

theorem resolveActiveAlerts_stock (db : DB) (p : Nat) (v : Option Nat) :
    (resolveActiveAlerts db p v).stock = db.stock := rfl

theorem reconcileAlerts_stock (db : DB) (p : Nat) (v : Option Nat) (q m : Int) :
    (reconcileAlerts db p v q m).stock = db.stock := by
  unfold reconcileAlerts
  split
  · split <;> rfl
  · rfl

theorem saleAlertCheck_stock (db : DB) (p : Nat) (v : Option Nat) (q m : Int) :
    (saleAlertCheck db p v q m).stock = db.stock := by
  unfold saleAlertCheck
  split
  · split <;> rfl
  · rfl

theorem reconcileAlerts_movements (db : DB) (p : Nat) (v : Option Nat) (q m : Int) :
    (reconcileAlerts db p v q m).stock_movements = db.stock_movements := by
  unfold reconcileAlerts
  split
  · split <;> rfl
  · rfl

theorem saleAlertCheck_movements (db : DB) (p : Nat) (v : Option Nat) (q m : Int) :
    (saleAlertCheck db p v q m).stock_movements = db.stock_movements := by
  unfold saleAlertCheck
  split
  · split <;> rfl
  · rfl

theorem updateStockQuantity_movements (db : DB) (p : Nat) (v : Option Nat) (q : Int) (u : Nat) :
    (updateStockQuantity db p v q u).stock_movements = db.stock_movements := rfl

theorem updateStockQuantity_alerts (db : DB) (p : Nat) (v : Option Nat) (q : Int) (u : Nat) :
    (updateStockQuantity db p v q u).low_stock_alerts = db.low_stock_alerts := rfl

theorem insertMovement_alerts (db : DB) (m : StockMovement) :
    (insertMovement db m).low_stock_alerts = db.low_stock_alerts := rfl

theorem refundItem_sales (u sid : Nat) (n : String) (reason : Option String)
    (db : DB) (item : SaleItem) :
    (refundItem u sid n reason db item).sales = db.sales := by
  unfold refundItem
  split <;> rfl

theorem refundItem_alerts (u sid : Nat) (n : String) (reason : Option String)
    (db : DB) (item : SaleItem) :
    (refundItem u sid n reason db item).low_stock_alerts = db.low_stock_alerts := by
  unfold refundItem
  split <;> rfl

theorem updateSaleStatusNotes_alerts (db : DB) (sid : Nat) (st nt : String) :
    (updateSaleStatusNotes db sid st nt).low_stock_alerts = db.low_stock_alerts := rfl

/-! Evaluation of the adjustment-type switch on the literal cases. -/

theorem computeNewQuantity_out (q d : Int) :
    computeNewQuantity "out" q d = max 0 (q - d) := rfl

theorem computeNewQuantity_in (q d : Int) :
    computeNewQuantity "in" q d = q + d := rfl

/-- The stock-key predicate ignores the quantity and actor fields. -/
theorem stockKeyMatch_setQuantity (p : Nat) (v : Option Nat) (q : Int) (u : Nat)
    (s : StockLine) :
    stockKeyMatch p v { s with quantity := q, updated_by := some u } = stockKeyMatch p v s :=
  rfl

/-- Finding a stock key in a list after the key-targeted quantity update. -/
theorem find?_updateStock (p : Nat) (v : Option Nat) (q : Int) (u : Nat) :
    ∀ (l : List StockLine) (s : StockLine),
      l.find? (stockKeyMatch p v) = some s →
      (l.map (fun t => if stockKeyMatch p v t then
          { t with quantity := q, updated_by := some u } else t)).find?
        (stockKeyMatch p v) = some { s with quantity := q, updated_by := some u }
  | [], s, h => by simp at h
  | a :: t, s, h => by
    by_cases ha : stockKeyMatch p v a = true
    · rw [List.find?_cons_of_pos _ ha] at h
      injection h with h
      subst h
      simp only [List.map_cons, if_pos ha]
      exact List.find?_cons_of_pos _ (by rw [stockKeyMatch_setQuantity]; exact ha)
    · rw [List.find?_cons_of_neg _ ha] at h
      simp only [List.map_cons, if_neg ha]
      rw [List.find?_cons_of_neg _ ha]
      exact find?_updateStock p v q u t s h

/-- Looking up a stock key after updating that key returns the row with the
new quantity and actor. -/
theorem getStock_updateStockQuantity (db : DB) (p : Nat) (v : Option Nat)
    (q : Int) (u : Nat) (s : StockLine) (h : getStock db p v = some s) :
    getStock (updateStockQuantity db p v q u) p v =
      some { s with quantity := q, updated_by := some u } :=
  find?_updateStock p v q u db.stock s h

/-- Looking up stock reads only the stock table. -/
theorem getStock_congr (db1 db2 : DB) (p : Nat) (v : Option Nat)
    (h : db1.stock = db2.stock) : getStock db1 p v = getStock db2 p v := by
  unfold getStock
  rw [h]

/-- Evaluation of `adjust` on the happy path: with a valid request, an
active product and an existing stock line, the route commits the stock
update, the movement, and the alert reconciliation. -/
theorem adjust_eq_ok (db : DB) (u : Nat) (r : AdjustRequest)
    (product : Product) (s : StockLine)
    (hv : adjustRequestValid r = true)
    (hp : getActiveProduct db r.product_id = some product)
    (hs : getStock db r.product_id r.variant_id = some s) :
    adjust db u r = .ok
      (reconcileAlerts
        (insertMovement
          (updateStockQuantity db r.product_id r.variant_id
            (computeNewQuantity r.adjustment_type s.quantity r.quantity) u)
          ⟨r.product_id, r.variant_id, r.adjustment_type,
            computeNewQuantity r.adjustment_type s.quantity r.quantity - s.quantity,
            s.quantity, computeNewQuantity r.adjustment_type s.quantity r.quantity,
            none, none, r.notes, u⟩)
        r.product_id r.variant_id
        (computeNewQuantity r.adjustment_type s.quantity r.quantity)
        product.min_stock_level,
      ⟨r.adjustment_type,
        computeNewQuantity r.adjustment_type s.quantity r.quantity - s.quantity,
        s.quantity, computeNewQuantity r.adjustment_type s.quantity r.quantity⟩) := by
  simp only [adjust, hv, if_true, hp, hs]

/-- Evaluation of one bulk-adjust item on the happy path. -/
theorem bulkAdjustItem_eq_ok (db : DB) (u : Nat) (notes : Option String)
    (a : BulkAdjustmentItem) (product : Product) (s : StockLine)
    (hp : getActiveProduct db a.product_id = some product)
    (hs : getStock db a.product_id a.variant_id = some s) :
    bulkAdjustItem db u notes a =
      (reconcileAlerts
        (insertMovement
          (updateStockQuantity db a.product_id a.variant_id
            (computeNewQuantity a.adjustment_type s.quantity a.quantity) u)
          ⟨a.product_id, a.variant_id, a.adjustment_type,
            computeNewQuantity a.adjustment_type s.quantity a.quantity - s.quantity,
            s.quantity, computeNewQuantity a.adjustment_type s.quantity a.quantity,
            none, none, some (notes.getD ("Bulk adjustment")), u⟩)
        a.product_id a.variant_id
        (computeNewQuantity a.adjustment_type s.quantity a.quantity)
        product.min_stock_level,
      Sum.inl ⟨a.product_id, product.name, a.adjustment_type,
        computeNewQuantity a.adjustment_type s.quantity a.quantity - s.quantity,
        s.quantity, computeNewQuantity a.adjustment_type s.quantity a.quantity, true⟩) := by
  simp only [bulkAdjustItem, hp, hs]

/-- C3: for an adjustment of type `out` (single adjust and each bulkAdjust
item), for every current quantity q and requested quantity d, the resulting
StockLine quantity is max(0, q − d) — never negative — and the
StockMovement's recorded quantity_change is the actually applied delta
(after − before), not the requested −d. -/
theorem adjust_out_clamps (db : DB) (u : Nat) (pid : Nat) (vid : Option Nat)
    (d : Int) (notes : Option String) (product : Product) (s : StockLine)
    (hd : 1 ≤ d)
    (hp : getActiveProduct db pid = some product)
    (hs : getStock db pid vid = some s) :
    (∃ db1, adjust db u ⟨pid, vid, "out", d, notes⟩ =
        .ok (db1, ⟨"out", max 0 (s.quantity - d) - s.quantity, s.quantity,
          max 0 (s.quantity - d)⟩) ∧
      0 ≤ max 0 (s.quantity - d) ∧
      getStock db1 pid vid =
        some { s with quantity := max 0 (s.quantity - d), updated_by := some u } ∧
      db1.stock_movements = db.stock_movements ++
        [⟨pid, vid, "out", max 0 (s.quantity - d) - s.quantity, s.quantity,
          max 0 (s.quantity - d), none, none, notes, u⟩]) ∧
    (∀ bnotes : Option String, ∃ db2,
      bulkAdjustItem db u bnotes ⟨pid, vid, "out", d⟩ =
        (db2, Sum.inl ⟨pid, product.name, "out",
          max 0 (s.quantity - d) - s.quantity, s.quantity,
          max 0 (s.quantity - d), true⟩) ∧
      getStock db2 pid vid =
        some { s with quantity := max 0 (s.quantity - d), updated_by := some u } ∧
      db2.stock_movements = db.stock_movements ++
        [⟨pid, vid, "out", max 0 (s.quantity - d) - s.quantity, s.quantity,
          max 0 (s.quantity - d), none, none, some (bnotes.getD ("Bulk adjustment")), u⟩]) := by
  have hv : adjustRequestValid ⟨pid, vid, "out", d, notes⟩ = true := by
    simp [adjustRequestValid, hd]
  constructor
  · refine ⟨_, adjust_eq_ok db u ⟨pid, vid, "out", d, notes⟩ product s hv hp hs, ?_, ?_, ?_⟩
    · exact le_max_left 0 _
    · rw [getStock_congr _ (updateStockQuantity db pid vid
          (computeNewQuantity "out" s.quantity d) u) pid vid
          (by rw [reconcileAlerts_stock, insertMovement_stock]),
        getStock_updateStockQuantity db pid vid _ u s hs, computeNewQuantity_out]
    · rw [reconcileAlerts_movements, computeNewQuantity_out]
      rfl
  · intro bnotes
    refine ⟨_, bulkAdjustItem_eq_ok db u bnotes ⟨pid, vid, "out", d⟩ product s hp hs, ?_, ?_⟩
    · rw [getStock_congr _ (updateStockQuantity db pid vid
          (computeNewQuantity "out" s.quantity d) u) pid vid
          (by rw [reconcileAlerts_stock, insertMovement_stock]),
        getStock_updateStockQuantity db pid vid _ u s hs, computeNewQuantity_out]
    · rw [reconcileAlerts_movements, computeNewQuantity_out]
      rfl

/-- Witness for C3: the spec's over-withdrawal scenario — quantity 3,
adjust(out, 10) yields quantity 0 and recorded change −3. -/
theorem adjust_out_clamps_witness :
    ∃ db1, adjust dbClamp 1 ⟨1, none, "out", 10, none⟩ =
        .ok (db1, ⟨"out", -3, 3, 0⟩) ∧
      getStock db1 1 none = some ⟨1, none, 0, some 1⟩ := by
  obtain ⟨⟨db1, h1, _, h3, _⟩, _⟩ :=
    adjust_out_clamps dbClamp 1 1 none 10 none ⟨1, "Product A", 0, true⟩
      ⟨1, none, 3, none⟩ (by decide) (by decide) (by decide)
  refine ⟨db1, ?_, ?_⟩
  · have : (max 0 ((3:Int) - 10) - 3 = -3) ∧ (max 0 ((3:Int) - 10) = 0) := by decide
    rw [this.1, this.2] at h1
    exact h1
  · have : (max 0 ((3:Int) - 10) = 0) := by decide
    rw [this] at h3
    exact h3

/-- C1 (evaluation at the failing input): a sale listing the same
(product 1, no variant) key on two lines, quantities 2 and 1, against a
stock of 5 built by a prior `in` adjustment. The route debits each line from
the validation-time snapshot 5, so the committed quantity is 4 while the
recorded movements are (before 5, change −2, after 3) and (before 5,
change −1, after 4): replaying the history from 0 gives 2 ≠ 4, and the
second entry's quantity_before is not the quantity after the first entry. -/
theorem sale_duplicate_key_breaks_ledger_replay :
    (getStock dbDupKeyAfter 1 none).map StockLine.quantity = some 4 ∧
    replayQuantity (movementsFor dbDupKeyAfter 1 none) = 2 ∧
    (movementsFor dbDupKeyAfter 1 none).map
      (fun m => (m.quantity_before, m.quantity_change, m.quantity_after)) =
      [(0, 5, 5), (5, -2, 3), (5, -1, 4)] := by
  refine ⟨rfl, rfl, rfl⟩

/-- C2: createSale validates every line before performing any write; a
validation failure on any line leaves zero Sale rows, zero SaleItem rows,
zero StockMovement rows persisted and every StockLine unchanged, and the
call reports an error. -/
theorem createSale_validation_atomic (db : DB) (u : Nat) (n : String)
    (r : SaleRequest) (e : ApiError)
    (h : validateSaleItems db r.items = .error e) :
    (createSaleEndpoint db u n r).1.sales = db.sales ∧
    (createSaleEndpoint db u n r).1.sale_items = db.sale_items ∧
    (createSaleEndpoint db u n r).1.stock_movements = db.stock_movements ∧
    (createSaleEndpoint db u n r).1.stock = db.stock ∧
    ∃ e2, (createSaleEndpoint db u n r).2 = .error e2 := by
  cases hv : saleRequestValid r with
  | false => simp [createSaleEndpoint, createSale, hv]
  | true => simp [createSaleEndpoint, createSale, hv, h]

/-- Witness for C2: the spec's atomicity scenario — product 1 has stock 5,
the sale requests [product 1: 3, product 2: 100 (out of stock)]; the call
fails and the state is untouched. -/
theorem createSale_validation_atomic_witness :
    (createSaleEndpoint dbAtomicity 1 "S-9"
        ⟨[⟨1, none, 3, 10⟩, ⟨2, none, 100, 5⟩], "cash", none, 0, 0, none⟩).1.stock =
      dbAtomicity.stock ∧
    (createSaleEndpoint dbAtomicity 1 "S-9"
        ⟨[⟨1, none, 3, 10⟩, ⟨2, none, 100, 5⟩], "cash", none, 0, 0, none⟩).1.sales =
      dbAtomicity.sales ∧
    (createSaleEndpoint dbAtomicity 1 "S-9"
        ⟨[⟨1, none, 3, 10⟩, ⟨2, none, 100, 5⟩], "cash", none, 0, 0, none⟩).1.stock_movements =
      dbAtomicity.stock_movements ∧
    ∃ e2, (createSaleEndpoint dbAtomicity 1 "S-9"
        ⟨[⟨1, none, 3, 10⟩, ⟨2, none, 100, 5⟩], "cash", none, 0, 0, none⟩).2 = .error e2 := by
  obtain ⟨h1, h2, h3, h4, h5⟩ :=
    createSale_validation_atomic dbAtomicity 1 "S-9"
      ⟨[⟨1, none, 3, 10⟩, ⟨2, none, 100, 5⟩], "cash", none, 0, 0, none⟩
      (.insufficientStock ("Product B") 0 100) rfl
  exact ⟨h4, h1, h3, h5⟩

/-! Non-negativity machinery for C4. -/

/-- The non-negativity invariant reads only the stock table. -/
theorem stockNonNeg_of_stock_eq (db1 db2 : DB) (h : db1.stock = db2.stock)
    (hdb : stockNonNeg db2) : stockNonNeg db1 := by
  unfold stockNonNeg at *
  rw [h]
  exact hdb

/-- Updating a stock key to a non-negative quantity preserves
non-negativity. -/
theorem stockNonNeg_update (db : DB) (p : Nat) (v : Option Nat) (q : Int) (u : Nat)
    (hdb : stockNonNeg db) (hq : 0 ≤ q) :
    stockNonNeg (updateStockQuantity db p v q u) := by
  intro s hs
  unfold updateStockQuantity at hs
  simp only [List.mem_map] at hs
  obtain ⟨t, ht, rfl⟩ := hs
  by_cases h : stockKeyMatch p v t = true
  · simp only [if_pos h]
    exact hq
  · simp only [if_neg h]
    exact hdb t ht

/-- The adjustment-type switch yields a non-negative quantity whenever the
current quantity is non-negative and the requested quantity passes the
validators (≥ 0). -/
theorem computeNewQuantity_nonneg (t : String) (q d : Int)
    (hq : 0 ≤ q) (hd : 0 ≤ d) : 0 ≤ computeNewQuantity t q d := by
  unfold computeNewQuantity
  split
  · exact add_nonneg hq hd
  · split
    · exact le_max_left 0 _
    · exact hd

/-- A single adjustment of any validated type keeps every stock quantity
non-negative. -/
theorem adjust_preserves_nonneg (db : DB) (u : Nat) (r : AdjustRequest)
    (hdb : stockNonNeg db) : stockNonNeg (applyOp db (.adjustOp u r)) := by
  cases hres : adjust db u r with
  | error e =>
    simp only [applyOp, hres]
    exact hdb
  | ok p =>
    obtain ⟨db1, res⟩ := p
    simp only [applyOp, hres]
    rw [adjust] at hres
    split at hres
    case isFalse => exact Except.noConfusion hres
    case isTrue hv =>
      split at hres
      · exact Except.noConfusion hres
      case h_2 product hp =>
        split at hres
        · exact Except.noConfusion hres
        case h_2 s hs =>
          injection hres with hres
          injection hres with h1 h2
          subst h1
          have hqs : 0 ≤ s.quantity :=
            hdb s (List.mem_of_find?_eq_some hs)
          have hd : 0 ≤ r.quantity := by
            have := (Bool.and_eq_true _ _).mp hv |>.2
            have := of_decide_eq_true this
            omega
          refine stockNonNeg_of_stock_eq _
            (updateStockQuantity db r.product_id r.variant_id
              (computeNewQuantity r.adjustment_type s.quantity r.quantity) u) ?_ ?_
          · rw [reconcileAlerts_stock, insertMovement_stock]
          · exact stockNonNeg_update _ _ _ _ _ hdb
              (computeNewQuantity_nonneg _ _ _ hqs hd)

/-- Every item accepted by the createSale validation loop requested at most
the stock quantity observed for it. -/
theorem validateSaleItems_bound (db : DB) :
    ∀ (items : List SaleItemRequest) (vs : List ValidatedItem),
      validateSaleItems db items = .ok vs → ∀ v ∈ vs, v.quantity ≤ v.current_stock
  | [], vs, h => by
    rw [validateSaleItems] at h
    injection h with h
    subst h
    intro v hv
    exact absurd hv (List.not_mem_nil v)
  | item :: rest, vs, h => by
    rw [validateSaleItems] at h
    split at h
    · exact Except.noConfusion h
    case h_2 product hp =>
      split at h
      · exact Except.noConfusion h
      case h_2 stock hs =>
        split at h
        case isTrue => exact Except.noConfusion h
        case isFalse hlt =>
          split at h
          · exact Except.noConfusion h
          case h_2 vs0 hrec =>
            injection h with h
            subst h
            intro v hv
            rcases List.mem_cons.mp hv with rfl | hv
            · exact le_of_not_lt hlt
            · exact validateSaleItems_bound db rest vs0 hrec v hv

/-- One createSale write-loop iteration keeps every stock quantity
non-negative, given the validation bound for its item. -/
theorem saleItemWrite_nonneg (u sid : Nat) (n : String) (db : DB)
    (item : ValidatedItem) (hdb : stockNonNeg db)
    (hitem : item.quantity ≤ item.current_stock) :
    stockNonNeg (saleItemWrite u sid n db item) := by
  unfold saleItemWrite
  refine stockNonNeg_of_stock_eq _
    (updateStockQuantity { db with
        sale_items := db.sale_items ++
          [⟨db.next_sale_item_id, sid, item.product_id, item.variant_id,
            item.quantity, item.unit_price, item.total_price, 0⟩],
        next_sale_item_id := db.next_sale_item_id + 1 }
      item.product_id item.variant_id (item.current_stock - item.quantity) u) ?_ ?_
  · rw [saleAlertCheck_stock, insertMovement_stock]
  · exact stockNonNeg_update _ _ _ _ _ hdb (sub_nonneg.mpr hitem)

/-- The full createSale write loop keeps every stock quantity
non-negative. -/
theorem foldl_saleItemWrite_nonneg (u sid : Nat) (n : String) :
    ∀ (vs : List ValidatedItem) (db : DB), stockNonNeg db →
      (∀ v ∈ vs, v.quantity ≤ v.current_stock) →
      stockNonNeg (vs.foldl (saleItemWrite u sid n) db)
  | [], db, hdb, _ => hdb
  | v :: rest, db, hdb, hb => by
    rw [List.foldl_cons]
    exact foldl_saleItemWrite_nonneg u sid n rest _
      (saleItemWrite_nonneg u sid n db v hdb (hb v (List.mem_cons_self v rest)))
      (fun w hw => hb w (List.mem_cons_of_mem v hw))

/-- A sale keeps every stock quantity non-negative. -/
theorem createSale_preserves_nonneg (db : DB) (u : Nat) (n : String)
    (r : SaleRequest) (hdb : stockNonNeg db) :
    stockNonNeg (applyOp db (.saleOp u n r)) := by
  cases hres : createSale db u n r with
  | error e =>
    simp only [applyOp, createSaleEndpoint, hres]
    exact hdb
  | ok p =>
    obtain ⟨db1, sid⟩ := p
    simp only [applyOp, createSaleEndpoint, hres]
    rw [createSale] at hres
    split at hres
    case isFalse => exact Except.noConfusion hres
    case isTrue hv =>
      split at hres
      · exact Except.noConfusion hres
      case h_2 vs hval =>
        injection hres with hres
        injection hres with h1 h2
        subst h1
        exact foldl_saleItemWrite_nonneg u db.next_sale_id n vs _ hdb
          (validateSaleItems_bound db r.items vs hval)

/-- C4: for every sequence of `out` adjustments and sales, each with
arbitrary requested quantity, starting from a state where every StockLine
quantity is non-negative, every StockLine quantity remains non-negative
after every operation. -/
theorem debits_preserve_nonneg (ops : List DebitOp) :
    ∀ (db : DB), stockNonNeg db → stockNonNeg (applyDebits db ops) := by
  induction ops with
  | nil => exact fun db hdb => hdb
  | cons op rest ih =>
    intro db hdb
    rw [applyDebits, List.foldl_cons]
    refine ih _ ?_
    cases op with
    | outAdjust u pid vid q n => exact adjust_preserves_nonneg db u _ hdb
    | saleDebit u n r => exact createSale_preserves_nonneg db u n r hdb

/-- Witness for C4: an over-sized `out` adjustment followed by a sale on the
clamp scenario leaves all quantities non-negative. -/
theorem debits_preserve_nonneg_witness :
    stockNonNeg (applyDebits dbClamp
      [.outAdjust 1 1 none 10 none,
       .saleDebit 1 "S-4" ⟨[⟨1, none, 1, 5⟩], "cash", none, 0, 0, none⟩]) :=
  debits_preserve_nonneg
    [.outAdjust 1 1 none 10 none,
     .saleDebit 1 "S-4" ⟨[⟨1, none, 1, 5⟩], "cash", none, 0, 0, none⟩]
    dbClamp (by decide)

/-! Alert machinery: at most one active alert per key, idempotent
reconciliation, and resolution. -/

/-- A resolved row never matches the active-alert WHERE clause of its key. -/
theorem alertActiveKeyMatch_resolveRow (p : Nat) (v : Option Nat) (a : LowStockAlert) :
    alertActiveKeyMatch p v (resolveAlertRow p v a) = false := by
  unfold resolveAlertRow
  by_cases h : alertActiveKeyMatch p v a = true
  · rw [if_pos h]
    unfold alertActiveKeyMatch
    simp
  · rw [if_neg h]
    exact Bool.not_eq_true _ ▸ h

/-- A row still active after the resolve UPDATE was not touched by it. -/
theorem resolveAlertRow_active_eq (p : Nat) (v : Option Nat) (a : LowStockAlert)
    (h : (resolveAlertRow p v a).alert_status = "active") :
    resolveAlertRow p v a = a := by
  unfold resolveAlertRow at *
  by_cases hc : alertActiveKeyMatch p v a = true
  · rw [if_pos hc] at h
    simp at h
  · rw [if_neg hc]

/-- Resolving a key twice is the same as resolving it once, row by row. -/
theorem resolveAlertRow_idem (p : Nat) (v : Option Nat) (a : LowStockAlert) :
    resolveAlertRow p v (resolveAlertRow p v a) = resolveAlertRow p v a := by
  have h := alertActiveKeyMatch_resolveRow p v a
  conv_lhs => rw [resolveAlertRow]
  rw [if_neg (by rw [h]; exact Bool.false_ne_true)]

/-- Resolving a key twice is the same as resolving it once. -/
theorem resolveActiveAlerts_idem (db : DB) (p : Nat) (v : Option Nat) :
    resolveActiveAlerts (resolveActiveAlerts db p v) p v = resolveActiveAlerts db p v := by
  unfold resolveActiveAlerts
  simp only [List.map_map]
  congr 1
  apply List.map_congr_left
  intro a _
  exact resolveAlertRow_idem p v a

/-- After resolving a key, no active alert rows remain for it. -/
theorem activeAlertsFor_resolve (db : DB) (p : Nat) (v : Option Nat) :
    activeAlertsFor (resolveActiveAlerts db p v) p v = [] := by
  unfold activeAlertsFor resolveActiveAlerts
  simp only
  rw [List.filter_eq_nil_iff]
  intro a ha
  rw [List.mem_map] at ha
  obtain ⟨b, _, rfl⟩ := ha
  rw [alertActiveKeyMatch_resolveRow]
  exact Bool.false_ne_true

/-- Looking up the active alert of a key just inserted for that key finds
the inserted row. -/
theorem getActiveAlert_insert_self (db : DB) (p : Nat) (v : Option Nat) (c m : Int)
    (h : getActiveAlert db p v = none) :
    getActiveAlert (insertAlert db p v c m) p v = some ⟨p, v, c, m, "active"⟩ := by
  unfold getActiveAlert insertAlert at *
  simp only
  rw [List.find?_append, h]
  simp [alertActiveKeyMatch]

/-- Reconciling the same (quantity, minLevel) twice equals reconciling it
once: no additional alert rows, no extra churn. -/
theorem reconcileAlerts_idem (db : DB) (p : Nat) (v : Option Nat) (q m : Int) :
    reconcileAlerts (reconcileAlerts db p v q m) p v q m = reconcileAlerts db p v q m := by
  by_cases hqm : q ≤ m
  · cases hfind : getActiveAlert db p v with
    | some a =>
      have e1 : reconcileAlerts db p v q m = db := by
        simp only [reconcileAlerts, if_pos hqm, hfind]
      rw [e1]
      exact e1
    | none =>
      have e1 : reconcileAlerts db p v q m = insertAlert db p v q m := by
        simp only [reconcileAlerts, if_pos hqm, hfind]
      rw [e1]
      simp only [reconcileAlerts, if_pos hqm, getActiveAlert_insert_self db p v q m hfind]
  · have e1 : reconcileAlerts db p v q m = resolveActiveAlerts db p v := by
      simp only [reconcileAlerts, if_neg hqm]
    rw [e1]
    simp only [reconcileAlerts, if_neg hqm]
    exact resolveActiveAlerts_idem db p v

/-- The createSale alert check is likewise idempotent. -/
theorem saleAlertCheck_idem (db : DB) (p : Nat) (v : Option Nat) (q m : Int) :
    saleAlertCheck (saleAlertCheck db p v q m) p v q m = saleAlertCheck db p v q m := by
  by_cases hqm : q ≤ m
  · cases hfind : getActiveAlert db p v with
    | some a =>
      have e1 : saleAlertCheck db p v q m = db := by
        simp only [saleAlertCheck, if_pos hqm, hfind]
      rw [e1]
      exact e1
    | none =>
      have e1 : saleAlertCheck db p v q m = insertAlert db p v q m := by
        simp only [saleAlertCheck, if_pos hqm, hfind]
      rw [e1]
      simp only [saleAlertCheck, if_pos hqm, getActiveAlert_insert_self db p v q m hfind]
  · have e1 : saleAlertCheck db p v q m = db := by
      simp only [saleAlertCheck, if_neg hqm]
    rw [e1]
    exact e1

/-- The single-active-alert invariant reads only the alert table. -/
theorem singleActive_of_alerts_eq (db1 db2 : DB)
    (h : db1.low_stock_alerts = db2.low_stock_alerts) (hdb : singleActiveAlert db2) :
    singleActiveAlert db1 := by
  unfold singleActiveAlert at *
  rw [h]
  exact hdb

/-- Inserting an alert for a key with no active alert preserves the
single-active-alert invariant. -/
theorem singleActive_insert (db : DB) (p : Nat) (v : Option Nat) (c m : Int)
    (hnone : getActiveAlert db p v = none) (hdb : singleActiveAlert db) :
    singleActiveAlert (insertAlert db p v c m) := by
  unfold singleActiveAlert insertAlert at *
  simp only
  rw [List.pairwise_append]
  refine ⟨hdb, List.pairwise_singleton _ _, ?_⟩
  intro a ha b hb hsame
  rw [List.mem_singleton] at hb
  subst hb
  obtain ⟨h1, _, h3, h4⟩ := hsame
  unfold getActiveAlert at hnone
  rw [List.find?_eq_none] at hnone
  refine hnone a ha ?_
  unfold alertActiveKeyMatch
  simp [h1, h3, h4]

/-- The resolve UPDATE preserves the single-active-alert invariant. -/
theorem singleActive_resolve (db : DB) (p : Nat) (v : Option Nat)
    (hdb : singleActiveAlert db) : singleActiveAlert (resolveActiveAlerts db p v) := by
  unfold singleActiveAlert resolveActiveAlerts at *
  simp only
  refine List.Pairwise.map _ ?_ hdb
  intro a b hR hsame
  apply hR
  obtain ⟨h1, h2, h3, h4⟩ := hsame
  have ea := resolveAlertRow_active_eq p v a h1
  have eb := resolveAlertRow_active_eq p v b h2
  rw [ea] at h1 h3 h4
  rw [eb] at h2 h3 h4
  exact ⟨h1, h2, h3, h4⟩

/-- Alert reconciliation preserves the single-active-alert invariant. -/
theorem singleActive_reconcile (db : DB) (p : Nat) (v : Option Nat) (q m : Int)
    (hdb : singleActiveAlert db) : singleActiveAlert (reconcileAlerts db p v q m) := by
  unfold reconcileAlerts
  split
  · cases hfind : getActiveAlert db p v with
    | some a =>
      simp only [hfind]
      exact hdb
    | none =>
      simp only [hfind]
      exact singleActive_insert db p v q m hfind hdb
  · exact singleActive_resolve db p v hdb

/-- The createSale alert check preserves the single-active-alert
invariant. -/
theorem singleActive_saleCheck (db : DB) (p : Nat) (v : Option Nat) (q m : Int)
    (hdb : singleActiveAlert db) : singleActiveAlert (saleAlertCheck db p v q m) := by
  unfold saleAlertCheck
  split
  · cases hfind : getActiveAlert db p v with
    | some a =>
      simp only [hfind]
      exact hdb
    | none =>
      simp only [hfind]
      exact singleActive_insert db p v q m hfind hdb
  · exact hdb

/-- One createSale write-loop iteration preserves the single-active-alert
invariant. -/
theorem singleActive_saleItemWrite (u sid : Nat) (n : String) (db : DB)
    (item : ValidatedItem) (hdb : singleActiveAlert db) :
    singleActiveAlert (saleItemWrite u sid n db item) := by
  unfold saleItemWrite
  exact singleActive_saleCheck _ _ _ _ _ (singleActive_of_alerts_eq _ db rfl hdb)

/-- The createSale write loop preserves the single-active-alert invariant. -/
theorem singleActive_foldl_saleItemWrite (u sid : Nat) (n : String) :
    ∀ (vs : List ValidatedItem) (db : DB), singleActiveAlert db →
      singleActiveAlert (vs.foldl (saleItemWrite u sid n) db)
  | [], _, hdb => hdb
  | v :: rest, db, hdb => by
    rw [List.foldl_cons]
    exact singleActive_foldl_saleItemWrite u sid n rest _
      (singleActive_saleItemWrite u sid n db v hdb)

/-- One bulk-adjust item preserves the single-active-alert invariant. -/
theorem singleActive_bulkItem (db : DB) (u : Nat) (notes : Option String)
    (a : BulkAdjustmentItem) (hdb : singleActiveAlert db) :
    singleActiveAlert (bulkAdjustItem db u notes a).1 := by
  cases hp : getActiveProduct db a.product_id with
  | none =>
    simp only [bulkAdjustItem, hp]
    exact hdb
  | some product =>
    cases hs : getStock db a.product_id a.variant_id with
    | none =>
      simp only [bulkAdjustItem, hp, hs]
      exact hdb
    | some s =>
      simp only [bulkAdjustItem, hp, hs]
      exact singleActive_reconcile _ _ _ _ _ (singleActive_of_alerts_eq _ db rfl hdb)

/-- The bulk-adjust loop preserves the single-active-alert invariant. -/
theorem singleActive_bulkLoop (u : Nat) (notes : Option String) :
    ∀ (items : List BulkAdjustmentItem) (db : DB), singleActiveAlert db →
      singleActiveAlert (bulkAdjustLoop u notes db items).1
  | [], _, hdb => hdb
  | a :: rest, db, hdb => by
    rcases hstep : bulkAdjustItem db u notes a with ⟨db1, out⟩
    have h1 : singleActiveAlert db1 := by
      have h := singleActive_bulkItem db u notes a hdb
      rw [hstep] at h
      exact h
    have h2 := singleActive_bulkLoop u notes rest db1 h1
    rcases hloop : bulkAdjustLoop u notes db1 rest with ⟨db2, rs, fs⟩
    rw [hloop] at h2
    cases out with
    | inl r =>
      simp only [bulkAdjustLoop, hstep, hloop]
      exact h2
    | inr f =>
      simp only [bulkAdjustLoop, hstep, hloop]
      exact h2

/-- The refund restore-stock loop never touches the alert table. -/
theorem foldl_refundItem_alerts (u sid : Nat) (n : String) (reason : Option String) :
    ∀ (items : List SaleItem) (db : DB),
      (items.foldl (refundItem u sid n reason) db).low_stock_alerts = db.low_stock_alerts
  | [], _ => rfl
  | i :: rest, db => by
    rw [List.foldl_cons, foldl_refundItem_alerts u sid n reason rest, refundItem_alerts]

/-- A refund never touches the alert table at all. -/
theorem refund_alerts (db : DB) (u sid : Nat) (reason : Option String)
    (t : Option (List Nat)) :
    ((refund db u sid reason t).1).low_stock_alerts = db.low_stock_alerts := by
  cases hsale : getCompletedSale db sid with
  | none => simp only [refund, hsale]
  | some sale =>
    simp only [refund, hsale]
    rw [updateSaleStatusNotes_alerts, foldl_refundItem_alerts]

/-- A single adjustment preserves the single-active-alert invariant. -/
theorem singleActive_adjustOp (db : DB) (u : Nat) (r : AdjustRequest)
    (hdb : singleActiveAlert db) : singleActiveAlert (applyOp db (.adjustOp u r)) := by
  cases hres : adjust db u r with
  | error e =>
    simp only [applyOp, hres]
    exact hdb
  | ok p =>
    obtain ⟨db1, res⟩ := p
    simp only [applyOp, hres]
    rw [adjust] at hres
    split at hres
    case isFalse => exact Except.noConfusion hres
    case isTrue hv =>
      split at hres
      · exact Except.noConfusion hres
      case h_2 product hp =>
        split at hres
        · exact Except.noConfusion hres
        case h_2 s hs =>
          injection hres with hres
          injection hres with h1 h2
          subst h1
          exact singleActive_reconcile _ _ _ _ _ (singleActive_of_alerts_eq _ db rfl hdb)

/-- A sale preserves the single-active-alert invariant. -/
theorem singleActive_saleOp (db : DB) (u : Nat) (n : String) (r : SaleRequest)
    (hdb : singleActiveAlert db) : singleActiveAlert (applyOp db (.saleOp u n r)) := by
  cases hres : createSale db u n r with
  | error e =>
    simp only [applyOp, createSaleEndpoint, hres]
    exact hdb
  | ok p =>
    obtain ⟨db1, sid⟩ := p
    simp only [applyOp, createSaleEndpoint, hres]
    rw [createSale] at hres
    split at hres
    case isFalse => exact Except.noConfusion hres
    case isTrue hv =>
      split at hres
      · exact Except.noConfusion hres
      case h_2 vs hval =>
        injection hres with hres
        injection hres with h1 h2
        subst h1
        exact singleActive_foldl_saleItemWrite u db.next_sale_id n vs _
          (singleActive_of_alerts_eq _ db rfl hdb)

/-- A bulk adjustment preserves the single-active-alert invariant. -/
theorem singleActive_bulkOp (db : DB) (u : Nat) (as : List BulkAdjustmentItem)
    (n : Option String) (hdb : singleActiveAlert db) :
    singleActiveAlert (applyOp db (.bulkOp u as n)) := by
  cases hv : bulkAdjustValid as with
  | false =>
    simp only [applyOp, bulkAdjust, hv, Bool.false_eq_true, if_false]
    exact hdb
  | true =>
    have h := singleActive_bulkLoop u n as db hdb
    rcases hloop : bulkAdjustLoop u n db as with ⟨db1, rs, fs⟩
    rw [hloop] at h
    simp only [applyOp, bulkAdjust, hv, if_true, hloop]
    exact h

/-- C6: at most one active LowStockAlert exists per (product, variant) key
at any time — every route preserves the invariant because each alert
evaluation creates a new alert only when no active alert exists for the
key — and evaluating alerts repeatedly with the same quantity and
min-level produces no additional alert rows after the first. -/
theorem single_active_alert_invariant :
    (∀ (db : DB) (op : Op), singleActiveAlert db → singleActiveAlert (applyOp db op)) ∧
    (∀ (db : DB) (p : Nat) (v : Option Nat) (q m : Int),
      reconcileAlerts (reconcileAlerts db p v q m) p v q m = reconcileAlerts db p v q m ∧
      saleAlertCheck (saleAlertCheck db p v q m) p v q m = saleAlertCheck db p v q m) := by
  constructor
  · intro db op hdb
    cases op with
    | adjustOp u r => exact singleActive_adjustOp db u r hdb
    | bulkOp u as n => exact singleActive_bulkOp db u as n hdb
    | saleOp u n r => exact singleActive_saleOp db u n r hdb
    | refundOp u sid reason t =>
      exact singleActive_of_alerts_eq _ db (refund_alerts db u sid reason t) hdb
  · intro db p v q m
    exact ⟨reconcileAlerts_idem db p v q m, saleAlertCheck_idem db p v q m⟩

/-- Witness for C6: a sale crossing the threshold on a state that already
has an active alert preserves the invariant, and reconciliation twice at a
concrete (quantity, minLevel) adds nothing. -/
theorem single_active_alert_invariant_witness :
    singleActiveAlert (applyOp dbRefundAlert
      (.saleOp 1 "S-5" ⟨[⟨1, none, 1, 10⟩], "cash", none, 0, 0, none⟩)) ∧
    reconcileAlerts (reconcileAlerts dbClamp 1 none 0 5) 1 none 0 5 =
      reconcileAlerts dbClamp 1 none 0 5 :=
  ⟨single_active_alert_invariant.1 dbRefundAlert
      (.saleOp 1 "S-5" ⟨[⟨1, none, 1, 10⟩], "cash", none, 0, 0, none⟩) (by decide),
    (single_active_alert_invariant.2 dbClamp 1 none 0 5).1⟩

/-- C5 counterexample: on a state with an active alert (min level 5, stock
2), refunding the completed sale of 4 units succeeds and raises the
quantity to 6, strictly above the product's min level 5, yet the active
alert remains — the refund route never invokes any alert resolution. -/
theorem refund_above_min_leaves_active_alert :
    getActiveProduct dbRefundAlert 1 = some ⟨1, "Product A", 5, true⟩ ∧
    (refund dbRefundAlert 1 1 none none).2 = .ok ⟨"full", 1, 1⟩ ∧
    (getStock (refund dbRefundAlert 1 1 none none).1 1 none).map StockLine.quantity =
      some 6 ∧
    ((5 : Int) < 6) ∧
    activeAlertsFor (refund dbRefundAlert 1 1 none none).1 1 none =
      [⟨1, none, 2, 5, "active"⟩] := by
  refine ⟨rfl, rfl, rfl, by decide, rfl⟩

/-- C5 (amended): after a single adjust, and after each bulkAdjust item,
that leaves the quantity strictly above the product's min stock level, no
active alert remains for the (product, variant) key; createSale lines and
refund items perform no alert resolution, so this does not extend to them
(in particular an active alert survives a refund that credits stock back
above the minimum). -/
theorem adjust_above_min_resolves (db : DB) (u : Nat) (r : AdjustRequest)
    (product : Product) (s : StockLine)
    (hv : adjustRequestValid r = true)
    (hp : getActiveProduct db r.product_id = some product)
    (hs : getStock db r.product_id r.variant_id = some s)
    (hq : product.min_stock_level <
      computeNewQuantity r.adjustment_type s.quantity r.quantity) :
    (∃ db1 res, adjust db u r = .ok (db1, res) ∧
      activeAlertsFor db1 r.product_id r.variant_id = []) ∧
    (∀ notes, ∃ db2 rr,
      bulkAdjustItem db u notes
        ⟨r.product_id, r.variant_id, r.adjustment_type, r.quantity⟩ =
        (db2, Sum.inl rr) ∧
      activeAlertsFor db2 r.product_id r.variant_id = []) := by
  have hnot : ¬ (computeNewQuantity r.adjustment_type s.quantity r.quantity ≤
      product.min_stock_level) := not_le.mpr hq
  constructor
  · refine ⟨_, _, adjust_eq_ok db u r product s hv hp hs, ?_⟩
    unfold reconcileAlerts
    rw [if_neg hnot]
    exact activeAlertsFor_resolve _ _ _
  · intro notes
    refine ⟨_, _,
      bulkAdjustItem_eq_ok db u notes
        ⟨r.product_id, r.variant_id, r.adjustment_type, r.quantity⟩ product s hp hs, ?_⟩
    unfold reconcileAlerts
    rw [if_neg hnot]
    exact activeAlertsFor_resolve _ _ _

/-- Witness for the amended C5: an `in` adjustment of 10 on the active-alert
state raises the quantity to 12 > 5 and resolves the alert. -/
theorem adjust_above_min_resolves_witness :
    ∃ db1 res, adjust dbRefundAlert 1 ⟨1, none, "in", 10, none⟩ = .ok (db1, res) ∧
      activeAlertsFor db1 1 none = [] := by
  obtain ⟨⟨db1, res, h1, h2⟩, _⟩ :=
    adjust_above_min_resolves dbRefundAlert 1 ⟨1, none, "in", 10, none⟩
      ⟨1, "Product A", 5, true⟩ ⟨1, none, 2, some 1⟩
      (by decide) (by decide) (by decide) (by decide)
  exact ⟨db1, res, h1, h2⟩

/-- C7 counterexample: refunding the completed sale whose item's stock line
is absent succeeds with a full-refund response, writes no StockMovement and
changes no stock — the item is silently skipped rather than surfacing a
failure. -/
theorem refund_missing_stockline_silently_skipped :
    (refund dbMissingStock 1 1 none none).2 = .ok ⟨"full", 1, 1⟩ ∧
    (refund dbMissingStock 1 1 none none).1.stock_movements = [] ∧
    (refund dbMissingStock 1 1 none none).1.stock = [] := by
  refine ⟨rfl, rfl, rfl⟩

/-- C7 (amended): for each refund target item whose StockLine exists, the
loop writes exactly one StockMovement of kind `return` with
quantity_change = +quantity, reference_id = saleId and
reference_type = `refund`, and credits the quantity back to the StockLine;
a target item whose StockLine is absent is silently skipped — no write, no
error. -/
theorem refundItem_cases (u sid : Nat) (n : String) (reason : Option String)
    (db : DB) (item : SaleItem) :
    (∀ s, getStock db item.product_id item.variant_id = some s →
      (refundItem u sid n reason db item).stock_movements = db.stock_movements ++
        [⟨item.product_id, item.variant_id, "return", item.quantity, s.quantity,
          s.quantity + item.quantity, some sid, some "refund",
          some ("Refund for sale " ++ n ++
            (match reason with | some t => ": " ++ t | none => "")), u⟩] ∧
      getStock (refundItem u sid n reason db item) item.product_id item.variant_id =
        some { s with quantity := s.quantity + item.quantity, updated_by := some u }) ∧
    (getStock db item.product_id item.variant_id = none →
      refundItem u sid n reason db item = db) := by
  constructor
  · intro s hs
    constructor
    · simp only [refundItem, hs]
      rfl
    · simp only [refundItem, hs]
      rw [getStock_congr _
          (updateStockQuantity db item.product_id item.variant_id
            (s.quantity + item.quantity) u) _ _ (insertMovement_stock _ _)]
      exact getStock_updateStockQuantity db _ _ _ u s hs
  · intro hs
    simp only [refundItem, hs]

/-- Witness for the amended C7: refunding the 4-unit item against stock 2
writes the `return` movement (+4, before 2, after 6) and credits the line. -/
theorem refundItem_cases_witness :
    (refundItem 1 1 "S-1" none dbRefundAlert ⟨1, 1, 1, none, 4, 10, 40, 0⟩).stock_movements =
      dbRefundAlert.stock_movements ++
        [⟨1, none, "return", 4, 2, 6, some 1, some "refund",
          some ("Refund for sale S-1"), 1⟩] ∧
    getStock (refundItem 1 1 "S-1" none dbRefundAlert ⟨1, 1, 1, none, 4, 10, 40, 0⟩) 1 none =
      some ⟨1, none, 6, some 1⟩ := by
  obtain ⟨h1, h2⟩ := (refundItem_cases 1 1 "S-1" none dbRefundAlert
    ⟨1, 1, 1, none, 4, 10, 40, 0⟩).1 ⟨1, none, 2, some 1⟩ rfl
  constructor
  · rw [h1]
    decide
  · rw [h2]
    decide

/-! Machinery for C8 and C10: status updates and target selection. -/

/-- The refund restore-stock loop never touches the sales table. -/
theorem foldl_refundItem_sales (u sid : Nat) (n : String) (reason : Option String) :
    ∀ (items : List SaleItem) (db : DB),
      (items.foldl (refundItem u sid n reason) db).sales = db.sales
  | [], _ => rfl
  | i :: rest, db => by
    rw [List.foldl_cons, foldl_refundItem_sales u sid n reason rest, refundItem_sales]

/-- The sale-id predicate ignores the status and notes fields. -/
theorem saleIdMatch_setStatus (sid : Nat) (st nt : String) (s : Sale) :
    saleIdMatch sid { s with status := st, notes := some nt } = saleIdMatch sid s :=
  rfl

/-- Finding a sale id in a list after the id-targeted status/notes update. -/
theorem find?_updateSale (sid : Nat) (st nt : String) :
    ∀ (l : List Sale) (s : Sale), l.find? (saleIdMatch sid) = some s →
      (l.map (fun x => if saleIdMatch sid x then { x with status := st, notes := some nt }
        else x)).find? (saleIdMatch sid) =
        some { s with status := st, notes := some nt }
  | [], s, h => by simp at h
  | a :: t, s, h => by
    by_cases ha : saleIdMatch sid a = true
    · rw [List.find?_cons_of_pos _ ha] at h
      injection h with h
      subst h
      simp only [List.map_cons, if_pos ha]
      exact List.find?_cons_of_pos _ (by rw [saleIdMatch_setStatus]; exact ha)
    · rw [List.find?_cons_of_neg _ ha] at h
      simp only [List.map_cons, if_neg ha]
      rw [List.find?_cons_of_neg _ ha]
      exact find?_updateSale sid st nt t s h

/-- Looking up a sale id after the status/notes update of that id. -/
theorem getSaleById_update (db : DB) (sid : Nat) (st nt : String) (s : Sale)
    (h : getSaleById db sid = some s) :
    getSaleById (updateSaleStatusNotes db sid st nt) sid =
      some { s with status := st, notes := some nt } :=
  find?_updateSale sid st nt db.sales s h

/-- Looking up a sale reads only the sales table. -/
theorem getSaleById_congr (db1 db2 : DB) (sid : Nat) (h : db1.sales = db2.sales) :
    getSaleById db1 sid = getSaleById db2 sid := by
  unfold getSaleById
  rw [h]

/-- A sale found by the completed-sale query is present with its id. -/
theorem getSaleById_isSome_of_completed (db : DB) (sid : Nat) (sale : Sale)
    (h : getCompletedSale db sid = some sale) :
    ∃ s0, getSaleById db sid = some s0 := by
  unfold getCompletedSale at h
  have hmem := List.mem_of_find?_eq_some h
  have hpred := List.find?_some h
  rw [Bool.and_eq_true] at hpred
  have : (getSaleById db sid).isSome := by
    unfold getSaleById
    rw [List.find?_isSome]
    exact ⟨sale, hmem, hpred.1⟩
  exact Option.isSome_iff_exists.mp this

/-- The target list equals the full item list in length exactly when every
item is targeted. -/
theorem refundTargetItems_all_iff (saleItems : List SaleItem)
    (targetIds : Option (List Nat)) :
    (refundTargetItems saleItems targetIds).length = saleItems.length ↔
      ∀ item ∈ saleItems, item ∈ refundTargetItems saleItems targetIds := by
  cases targetIds with
  | none => simp [refundTargetItems]
  | some ids =>
    simp only [refundTargetItems]
    by_cases hlen : 0 < ids.length
    · rw [if_pos hlen]
      constructor
      · intro h
        rw [(List.filter_sublist saleItems).eq_of_length h]
        exact fun item hi => hi
      · intro h
        have : saleItems.filter (fun item => ids.any (fun tid => tid == item.id)) =
            saleItems := by
          rw [List.filter_eq_self]
          intro a ha
          exact (List.mem_filter.mp (h a ha)).2
        rw [this]
    · rw [if_neg hlen]
      simp

/-- Evaluation of `refund` when the completed sale exists. -/
theorem refund_some_eq (db : DB) (u saleId : Nat) (reason : Option String)
    (targetIds : Option (List Nat)) (sale : Sale)
    (hsale : getCompletedSale db saleId = some sale) :
    refund db u saleId reason targetIds =
      (updateSaleStatusNotes
        ((refundTargetItems (saleItemsOf db saleId) targetIds).foldl
          (refundItem u saleId sale.sale_number reason) db)
        saleId
        (if (refundTargetItems (saleItemsOf db saleId) targetIds).length ==
            (saleItemsOf db saleId).length then "refunded" else "completed")
        ((sale.notes.getD ("")) ++ "\nRefund: " ++ (reason.getD ("No reason provided"))),
      .ok ⟨if (refundTargetItems (saleItemsOf db saleId) targetIds).length ==
            (saleItemsOf db saleId).length then "full" else "partial",
        (refundTargetItems (saleItemsOf db saleId) targetIds).length,
        (saleItemsOf db saleId).length⟩) := by
  simp only [refund, hsale]

/-- C8: refund sets Sale.status to `refunded` if and only if every original
SaleItem of the sale was targeted by the refund; otherwise the status stays
`completed`; in both cases the refund note is appended to the sale's
notes. -/
theorem refund_status_refunded_iff (db : DB) (u saleId : Nat)
    (reason : Option String) (targetIds : Option (List Nat)) (sale : Sale)
    (hsale : getCompletedSale db saleId = some sale) :
    ∃ o s1, (refund db u saleId reason targetIds).2 = .ok o ∧
      getSaleById (refund db u saleId reason targetIds).1 saleId = some s1 ∧
      (s1.status = "refunded" ↔
        ∀ item ∈ saleItemsOf db saleId,
          item ∈ refundTargetItems (saleItemsOf db saleId) targetIds) ∧
      (s1.status = "refunded" ∨ s1.status = "completed") ∧
      s1.notes = some ((sale.notes.getD ("")) ++ "\nRefund: " ++
        (reason.getD ("No reason provided"))) := by
  obtain ⟨s0, hs0⟩ := getSaleById_isSome_of_completed db saleId sale hsale
  rw [refund_some_eq db u saleId reason targetIds sale hsale]
  have hs0' : getSaleById
      ((refundTargetItems (saleItemsOf db saleId) targetIds).foldl
        (refundItem u saleId sale.sale_number reason) db) saleId = some s0 := by
    rw [getSaleById_congr _ db _ (foldl_refundItem_sales u saleId sale.sale_number reason _ db)]
    exact hs0
  refine ⟨_, _, rfl, getSaleById_update _ saleId _ _ s0 hs0', ?_, ?_, rfl⟩
  · constructor
    · intro hst
      rw [← refundTargetItems_all_iff]
      by_contra hne
      have : ¬ ((refundTargetItems (saleItemsOf db saleId) targetIds).length ==
          (saleItemsOf db saleId).length) = true := by
        intro hbeq
        exact hne (eq_of_beq hbeq)
      rw [if_neg this] at hst
      simp at hst
    · intro hall
      have heq := (refundTargetItems_all_iff (saleItemsOf db saleId) targetIds).mpr hall
      have : ((refundTargetItems (saleItemsOf db saleId) targetIds).length ==
          (saleItemsOf db saleId).length) = true := by
        rw [heq]
        exact beq_self_eq_true _
      rw [if_pos this]
  · by_cases hfull : ((refundTargetItems (saleItemsOf db saleId) targetIds).length ==
        (saleItemsOf db saleId).length) = true
    · left
      rw [if_pos hfull]
    · right
      rw [if_neg hfull]

/-- Witness for C8: a partial refund of item 1 of the two-item sale leaves
the status `completed` with the note appended. -/
theorem refund_status_refunded_iff_witness :
    ∃ o s1, (refund dbDoubleRefund 1 1 none (some [1])).2 = .ok o ∧
      getSaleById (refund dbDoubleRefund 1 1 none (some [1])).1 1 = some s1 ∧
      (s1.status = "refunded" ↔
        ∀ item ∈ saleItemsOf dbDoubleRefund 1,
          item ∈ refundTargetItems (saleItemsOf dbDoubleRefund 1) (some [1])) :=
  match refund_status_refunded_iff dbDoubleRefund 1 1 none (some [1])
    ⟨1, "S-3", 70, 0, 0, "cash", "completed", 1, none, none⟩ rfl with
  | ⟨o, s1, h1, h2, h3, _, _⟩ => ⟨o, s1, h1, h2, h3⟩

/-! Machinery for C9: per-item outcomes of the bulk-adjust loop. -/

/-- A failed bulk item leaves the state untouched and reports one of the
two validation reasons. -/
theorem bulkAdjustItem_fail (db : DB) (u : Nat) (notes : Option String)
    (a : BulkAdjustmentItem) (db1 : DB) (f : BulkFailure)
    (h : bulkAdjustItem db u notes a = (db1, Sum.inr f)) :
    db1 = db ∧ (f.error = "Product not found" ∨ f.error = "Stock record not found") := by
  rw [bulkAdjustItem] at h
  split at h
  · injection h with h1 h2
    injection h2 with h2
    subst h2
    exact ⟨h1.symm, Or.inl rfl⟩
  · split at h
    · injection h with h1 h2
      injection h2 with h2
      subst h2
      exact ⟨h1.symm, Or.inr rfl⟩
    · injection h with h1 h2
      exact Sum.noConfusion h2

/-- A successful bulk item appends exactly one movement carrying its
reported product and quantity change, and reports success. -/
theorem bulkAdjustItem_ok (db : DB) (u : Nat) (notes : Option String)
    (a : BulkAdjustmentItem) (db1 : DB) (r : BulkResult)
    (h : bulkAdjustItem db u notes a = (db1, Sum.inl r)) :
    db1.stock_movements = db.stock_movements ++
      [⟨a.product_id, a.variant_id, a.adjustment_type, r.quantity_change,
        r.previous_quantity, r.new_quantity, none, none,
        some (notes.getD ("Bulk adjustment")), u⟩] ∧
    r.product_id = a.product_id ∧ r.success = true := by
  rw [bulkAdjustItem] at h
  split at h
  · injection h with h1 h2
    exact Sum.noConfusion h2
  · split at h
    · injection h with h1 h2
      exact Sum.noConfusion h2
    · injection h with h1 h2
      injection h2 with h2
      subst h2
      subst h1
      refine ⟨?_, rfl, rfl⟩
      rw [reconcileAlerts_movements]
      rfl

/-- The bulk-adjust loop: every input item lands in exactly one of the two
result lists, the committed movements extend the ledger by exactly the
successful items in order, every reported success is success:true, and
every failure carries a validation reason. -/
theorem bulkAdjustLoop_spec (u : Nat) (notes : Option String) :
    ∀ (items : List BulkAdjustmentItem) (db db1 : DB) (rs : List BulkResult)
      (fs : List BulkFailure),
      bulkAdjustLoop u notes db items = (db1, rs, fs) →
      rs.length + fs.length = items.length ∧
      db1.stock_movements.map (fun m => (m.product_id, m.quantity_change)) =
        db.stock_movements.map (fun m => (m.product_id, m.quantity_change)) ++
          rs.map (fun r => (r.product_id, r.quantity_change)) ∧
      (∀ r ∈ rs, r.success = true) ∧
      (∀ f ∈ fs, f.error = "Product not found" ∨ f.error = "Stock record not found")
  | [], db, db1, rs, fs, h => by
    rw [bulkAdjustLoop] at h
    injection h with h1 h2
    injection h2 with h2 h3
    subst h1
    subst h2
    subst h3
    refine ⟨rfl, by simp, ?_, ?_⟩
    · intro r hr
      exact absurd hr (List.not_mem_nil r)
    · intro f hf
      exact absurd hf (List.not_mem_nil f)
  | a :: rest, db, db1, rs, fs, h => by
    rw [bulkAdjustLoop] at h
    rcases hstep : bulkAdjustItem db u notes a with ⟨dbx, out⟩
    rw [hstep] at h
    cases out with
    | inl r =>
      dsimp only at h
      rcases hloop : bulkAdjustLoop u notes dbx rest with ⟨db2, rs0, fs0⟩
      rw [hloop] at h
      dsimp only at h
      obtain ⟨ih1, ih2, ih3, ih4⟩ :=
        bulkAdjustLoop_spec u notes rest dbx db2 rs0 fs0 hloop
      obtain ⟨hm, hpid, hsucc⟩ := bulkAdjustItem_ok db u notes a dbx r hstep
      injection h with h1 h2
      injection h2 with h2 h3
      subst h1
      subst h2
      subst h3
      refine ⟨?_, ?_, ?_, ih4⟩
      · simp only [List.length_cons]
        omega
      · rw [ih2, hm]
        simp [hpid]
      · intro x hx
        rcases List.mem_cons.mp hx with rfl | hx
        · exact hsucc
        · exact ih3 x hx
    | inr f =>
      dsimp only at h
      rcases hloop : bulkAdjustLoop u notes dbx rest with ⟨db2, rs0, fs0⟩
      rw [hloop] at h
      dsimp only at h
      obtain ⟨ih1, ih2, ih3, ih4⟩ :=
        bulkAdjustLoop_spec u notes rest dbx db2 rs0 fs0 hloop
      obtain ⟨hdb, hreason⟩ := bulkAdjustItem_fail db u notes a dbx f hstep
      subst hdb
      injection h with h1 h2
      injection h2 with h2 h3
      subst h1
      subst h2
      subst h3
      refine ⟨?_, ih2, ih3, ?_⟩
      · simp only [List.length_cons]
        omega
      · intro x hx
        rcases List.mem_cons.mp hx with rfl | hx
        · exact hreason
        · exact ih4 x hx

/-- C9: in bulkAdjust each item is evaluated independently — a validation
failure is recorded in the failed list with a reason and does not abort the
remaining items; every item reported success:true has exactly one matching
StockMovement committed (the new ledger suffix lists exactly the successful
items' product and change, in order); and the response summary counts equal
the input length and the sizes of the two result lists. -/
theorem bulkAdjust_partial_isolation (db : DB) (u : Nat)
    (adjustments : List BulkAdjustmentItem) (notes : Option String)
    (hv : bulkAdjustValid adjustments = true) :
    ∃ db1 results failed,
      bulkAdjust db u adjustments notes =
        .ok (db1, results, failed,
          ⟨adjustments.length, results.length, failed.length⟩) ∧
      results.length + failed.length = adjustments.length ∧
      db1.stock_movements.map (fun m => (m.product_id, m.quantity_change)) =
        db.stock_movements.map (fun m => (m.product_id, m.quantity_change)) ++
          results.map (fun r => (r.product_id, r.quantity_change)) ∧
      (∀ r ∈ results, r.success = true) ∧
      (∀ f ∈ failed,
        f.error = "Product not found" ∨ f.error = "Stock record not found") := by
  rcases hloop : bulkAdjustLoop u notes db adjustments with ⟨db1, rs, fs⟩
  obtain ⟨h1, h2, h3, h4⟩ := bulkAdjustLoop_spec u notes adjustments db db1 rs fs hloop
  refine ⟨db1, rs, fs, ?_, h1, h2, h3, h4⟩
  simp only [bulkAdjust, hv, if_true, hloop]

/-- Witness for C9: the spec's bulk partial-failure scenario — one valid
item for product 1 and one for the unknown product 9999 — reports one
success and one failure and commits exactly one movement. -/
theorem bulkAdjust_partial_isolation_witness :
    ∃ db1 results failed,
      bulkAdjust dbClamp 1 [⟨1, none, "in", 5⟩, ⟨9999, none, "in", 5⟩] none =
        .ok (db1, results, failed, ⟨2, results.length, failed.length⟩) ∧
      results.length + failed.length = 2 := by
  obtain ⟨db1, rs, fs, h1, h2, _⟩ :=
    bulkAdjust_partial_isolation dbClamp 1 [⟨1, none, "in", 5⟩, ⟨9999, none, "in", 5⟩]
      none (by decide)
  exact ⟨db1, rs, fs, h1, h2⟩

/-- C10: refund succeeds exactly when the sale exists with status
`completed`, with no record of which items were already refunded — after a
partial refund the status remains `completed`, so a second identical call
succeeds, credits the same quantities back to stock again and writes
another `return` StockMovement, as the repeated partial refund of item 1
(4 units, stock 10 → 14 → 18, two +4 `return` rows) shows. -/
theorem refund_completed_iff_and_repeatable :
    (∀ (db : DB) (u saleId : Nat) (reason : Option String) (t : Option (List Nat)),
      (∃ o, (refund db u saleId reason t).2 = .ok o) ↔
      (∃ sale, getCompletedSale db saleId = some sale)) ∧
    ((getSaleById (refund dbDoubleRefund 1 1 none (some [1])).1 1).map Sale.status =
        some "completed" ∧
      (getStock (refund dbDoubleRefund 1 1 none (some [1])).1 1 none).map
        StockLine.quantity = some 14 ∧
      (getStock (refund (refund dbDoubleRefund 1 1 none (some [1])).1 1 1 none
          (some [1])).1 1 none).map StockLine.quantity = some 18 ∧
      (movementsFor (refund (refund dbDoubleRefund 1 1 none (some [1])).1 1 1 none
          (some [1])).1 1 none).map
          (fun m => (m.movement_type, m.quantity_change, m.reference_id,
            m.reference_type)) =
        [("return", 4, some 1, some "refund"), ("return", 4, some 1, some "refund")] ∧
      (refund (refund dbDoubleRefund 1 1 none (some [1])).1 1 1 none (some [1])).2 =
        .ok ⟨"partial", 1, 2⟩) := by
  constructor
  · intro db u saleId reason t
    constructor
    · rintro ⟨o, ho⟩
      cases hsale : getCompletedSale db saleId with
      | none =>
        simp only [refund, hsale] at ho
        exact Except.noConfusion ho
      | some sale => exact ⟨sale, rfl⟩
    · rintro ⟨sale, hsale⟩
      rw [refund_some_eq db u saleId reason t sale hsale]
      exact ⟨_, rfl⟩
  · exact ⟨rfl, rfl, rfl, rfl, rfl⟩

/-- Witness for C10: the iff instantiated on the double-refund scenario. -/
theorem refund_completed_iff_and_repeatable_witness :
    ∃ sale, getCompletedSale dbDoubleRefund 1 = some sale :=
  (refund_completed_iff_and_repeatable.1 dbDoubleRefund 1 1 none (some [1])).mp
    ⟨⟨"partial", 1, 2⟩, rfl⟩

end SC4X
